import Mathlib

/-!
Verification of the AI interviewer session lifecycle and utility layer.

The session state is a shallow embedding of the Streamlit session_state
dictionary in `app.py`; the three button handlers (Start Interview,
Submit Answer, Start New Interview) become pure state transformers
parameterised by the outputs of the remote AI calls, which are supplied
as oracle arguments.  `utils.py`'s functions are embedded likewise, with
their file-system effects recorded as explicit event traces.
-/

namespace AIInterviewer

/-- Python truthiness of an optional string: `None` and `""` are falsy.
The app dispatches its views with `if st.session_state.evaluation:` and
guards Start Interview with `if not api_key:`, so truthiness matters. -/
def pyTruthy : Option String → Bool
  | none => false
  | some s => decide (s ≠ "")

/-- The per-user session state of `app.py` (lines 12-22).  `chat_history`
holds `(current_question, answer)` pairs exactly as appended on line 241:
the question component is whatever `st.session_state.current_question`
holds, hence an optional string. -/
structure AppState where
  chat_history : List (Option String × String)
  current_question : Option String
  interview_active : Bool
  question_count : Nat
  evaluation : Option String
deriving Repr, DecidableEq

/-- Initial session state (`app.py` lines 13-22). -/
def initState : AppState :=
  { chat_history := []
    current_question := none
    interview_active := false
    question_count := 0
    evaluation := none }

/-- The spec's session status, derived from the app's top-level dispatch:
`if st.session_state.evaluation:` shows the completed view,
`elif st.session_state.interview_active:` the active view, `else` the
idle view (`app.py` lines 179, 206, 258). -/
inductive Status where
  | Idle
  | Active
  | Completed
deriving Repr, DecidableEq

/-- Status of a state, following the dispatch order of `app.py`. -/
def status (s : AppState) : Status :=
  if pyTruthy s.evaluation then Status.Completed
  else if s.interview_active then Status.Active
  else Status.Idle

/-- Observable side effects of the Start Interview handler. -/
inductive UiEvent where
  | errorShown (msg : String)
  | generatorInvoked (job_profile : String)
deriving Repr, DecidableEq

/-- Start Interview button handler (`app.py` lines 52-65).  `q` is the
oracle output of `get_ai_question(job_profile, [], api_key, provider)`.
Returns the new state paired with the handler's observable events. -/
def startSessionFull (api_key : Option String) (job_profile : String) (q : String)
    (s : AppState) : AppState × List UiEvent :=
  if !(pyTruthy api_key) then
    (s, [UiEvent.errorShown "GOOGLE_API_KEY not found in .env file."])
  else
    ({ chat_history := []
       current_question := some q
       interview_active := true
       question_count := 0
       evaluation := none },
     [UiEvent.generatorInvoked job_profile])

/-- State component of the Start Interview handler. -/
def startSession (api_key : Option String) (job_profile : String) (q : String)
    (s : AppState) : AppState :=
  (startSessionFull api_key job_profile q s).1

/-- Submit Answer button handler (`app.py` lines 230-256).  `text` is the
oracle output of `transcribe_audio`, `report` of `evaluate_interview`,
`next_q` of `get_ai_question` for the following question; the code
appends `(current_question, text)`, increments `question_count`, and
then either stores the report (count >= 7) or the next question. -/
def submitAnswer (text report next_q : String) (s : AppState) : AppState :=
  let h := s.chat_history ++ [(s.current_question, text)]
  let c := s.question_count + 1
  if c ≥ 7 then
    { s with chat_history := h, question_count := c, evaluation := some report }
  else
    { s with chat_history := h, question_count := c, current_question := some next_q }

/-- Start New Interview button handler (`app.py` lines 201-204), rendered
only in the completed view; it clears `interview_active` and
`evaluation` and nothing else.  Outside the completed view the button
does not exist, so the operation is the identity there. -/
def resetSession (s : AppState) : AppState :=
  if pyTruthy s.evaluation then
    { s with interview_active := false, evaluation := none }
  else s

/-- Submit Answer is reachable exactly in the active view: evaluation
falsy and `interview_active` set (`app.py` line 206). -/
def submitGuard (s : AppState) : Bool :=
  !(pyTruthy s.evaluation) && s.interview_active

/-- Start New Interview is reachable exactly in the completed view
(`app.py` line 179). -/
def resetGuard (s : AppState) : Bool :=
  pyTruthy s.evaluation

/-- One user-visible step of the session lifecycle.  The Start Interview
button lives in the always-rendered sidebar, so it carries no guard; the
other two handlers are only rendered in their respective views. -/
inductive Step : AppState → AppState → Prop
  | start (api_key : Option String) (job_profile q : String) (s : AppState) :
      Step s (startSession api_key job_profile q s)
  | submit (text report next_q : String) (s : AppState)
      (hg : submitGuard s = true) :
      Step s (submitAnswer text report next_q s)
  | reset (s : AppState) (hg : resetGuard s = true) :
      Step s (resetSession s)

/-- States reachable from the initial session state. -/
inductive Reachable : AppState → Prop
  | init : Reachable initState
  | step {s t : AppState} : Reachable s → Step s t → Reachable t

/-- Steps in which every evaluator report handed to Submit Answer is
non-empty (the report oracle never returns the empty string). -/
inductive GoodStep : AppState → AppState → Prop
  | start (api_key : Option String) (job_profile q : String) (s : AppState) :
      GoodStep s (startSession api_key job_profile q s)
  | submit (text report next_q : String) (s : AppState)
      (hg : submitGuard s = true) (hr : report ≠ "") :
      GoodStep s (submitAnswer text report next_q s)
  | reset (s : AppState) (hg : resetGuard s = true) :
      GoodStep s (resetSession s)

/-- States reachable using only non-empty evaluator reports. -/
inductive GoodReachable : AppState → Prop
  | init : GoodReachable initState
  | step {s t : AppState} : GoodReachable s → GoodStep s t → GoodReachable t

/-- The LLM handle constructed by `get_llm` in `utils.py` (lines 11-16):
one constructor per supported provider, carrying the key it was given. -/
inductive LLM where
  | chatOpenAI (api_key : Option String)
  | chatGoogleGenerativeAI (google_api_key : Option String)
deriving Repr, DecidableEq

/-- `get_llm` (`utils.py` lines 11-16): returns a provider-specific
handle, or `none` for an unknown provider. -/
def get_llm (api_key : Option String) (provider : String) : Option LLM :=
  if provider = "OpenAI" then some (LLM.chatOpenAI api_key)
  else if provider = "Gemini" then some (LLM.chatGoogleGenerativeAI api_key)
  else none

/-- The `history_text` serialisation of `get_ai_question` (`utils.py`
line 25): newline-joined Q:/A: rendering of the transcript. -/
def history_text (history : List (String × String)) : String :=
  String.intercalate "\n" (history.map fun p => "Q: " ++ p.1 ++ "\nA: " ++ p.2)

/-- `get_ai_question` (`utils.py` lines 18-46).  `invoke` is the oracle
for `chain.invoke({profile, history})`: `Except.error e` models the
raised exception's message, `Except.ok r` the model's reply.  The
function itself never raises: every failure becomes a returned string. -/
def get_ai_question (profile : String) (history : List (String × String))
    (api_key : Option String) (provider : String)
    (invoke : String → String → Except String String) : String :=
  match get_llm api_key provider with
  | none => "Error: Invalid API Key or Provider"
  | some _ =>
    match invoke profile (history_text history) with
    | Except.ok r => r
    | Except.error e =>
        "Error generating question: " ++ e ++ ". Please check your API Key in .env file."

/-- File-system events of the fallback transcription tier. -/
inductive FsEvent where
  | create (path : String)
  | removeAttempt (path : String)
deriving Repr, DecidableEq

/-- Environment of the fallback tier of `transcribe_audio` (`utils.py`
lines 73-111): the temp-file path picked by `tempfile`, the outcome of
the pydub conversion, the outcome of speech recognition on a given wav
path, and whether `os.remove` succeeds on a given path. -/
structure FallbackEnv where
  tmp_input_path : String
  convert : Except String Unit
  recognize : String → Except String String
  remove_ok : String → Bool

/-- Result of `transcribe_audio`: the returned text, the trace of
file-system events of the fallback tier, and whether the fallback ran. -/
structure TranscribeResult where
  text : String
  events : List FsEvent
  fallback_used : Bool
deriving Repr, DecidableEq

/-- The wav path used by the fallback tier (`utils.py` lines 87-94): the
converted path on conversion success, the original temp path otherwise. -/
def fallback_wav_path (env : FallbackEnv) : String :=
  match env.convert with
  | Except.ok _ => env.tmp_input_path.replace ".webm" ".wav"
  | Except.error _ => env.tmp_input_path

/-- Fallback (SpeechRecognition) tier of `transcribe_audio` (`utils.py`
lines 73-111).  The cleanup block (lines 101-107) runs only after a
successful recognition; inside it, `os.remove(wav_path)` is only reached
when `os.remove(tmp_input_path)` did not raise, and any raise in the
block is swallowed by the bare `except: pass`.  A recognition failure
jumps to the outer handler (line 110) and returns the formatted error
string without reaching the cleanup block. -/
def run_fallback (env : FallbackEnv) : TranscribeResult :=
  let tmp := env.tmp_input_path
  let wav := fallback_wav_path env
  let created :=
    match env.convert with
    | Except.ok _ => [FsEvent.create tmp, FsEvent.create wav]
    | Except.error _ => [FsEvent.create tmp]
  match env.recognize wav with
  | Except.ok text =>
      let cleanup :=
        FsEvent.removeAttempt tmp ::
          (if env.remove_ok tmp then
            (if wav ≠ tmp then [FsEvent.removeAttempt wav] else [])
          else [])
      { text := text, events := created ++ cleanup, fallback_used := true }
  | Except.error e =>
      { text := "Error transcribing audio: " ++ e ++
          ". (Note: ffmpeg is required for local processing, or provide a valid Gemini API Key)"
        events := created
        fallback_used := true }

/-- `transcribe_audio` (`utils.py` lines 48-111).  `gemini` is the
oracle for the whole primary tier (the import, configure and
`generate_content` call): `Except.ok t` is `response.text`, any raise is
`Except.error`.  The primary tier is tried only when the key is truthy;
on its failure control falls through to the fallback tier. -/
def transcribe_audio (api_key : Option String) (gemini : Except String String)
    (env : FallbackEnv) : TranscribeResult :=
  if pyTruthy api_key then
    match gemini with
    | Except.ok t => { text := t.trim, events := [], fallback_used := false }
    | Except.error _ => run_fallback env
  else
    run_fallback env

/-- A wall-clock instant as `datetime.now()` exposes it. -/
structure PyDateTime where
  year : Nat
  month : Nat
  day : Nat
  hour : Nat
  minute : Nat
  second : Nat
deriving Repr, DecidableEq

/-- The decimal digit character for `n % 10`. -/
def digitChar (n : Nat) : Char := Char.ofNat (48 + n % 10)

/-- Models `datetime.strftime("%Y%m%d_%H%M%S")` for in-range datetime
values (year below 10000): four zero-padded year digits, then two digits
for each remaining field, with an underscore between date and time. -/
def strftime_timestamp (t : PyDateTime) : String :=
  String.mk
    [digitChar (t.year / 1000), digitChar (t.year / 100),
     digitChar (t.year / 10), digitChar t.year,
     digitChar (t.month / 10), digitChar t.month,
     digitChar (t.day / 10), digitChar t.day,
     '_',
     digitChar (t.hour / 10), digitChar t.hour,
     digitChar (t.minute / 10), digitChar t.minute,
     digitChar (t.second / 10), digitChar t.second]

/-- YYYYMMDD_HHMMSS shape: fifteen characters, all decimal digits except
an underscore in position 8. -/
def isTimestampFormat (s : String) : Bool :=
  match s.data with
  | [c1, c2, c3, c4, c5, c6, c7, c8, c9, c10, c11, c12, c13, c14, c15] =>
      c1.isDigit && c2.isDigit && c3.isDigit && c4.isDigit &&
      c5.isDigit && c6.isDigit && c7.isDigit && c8.isDigit &&
      (c9 == '_') &&
      c10.isDigit && c11.isDigit && c12.isDigit && c13.isDigit &&
      c14.isDigit && c15.isDigit
  | _ => false

/-- The persisted record of `save_session` (`utils.py` lines 150-155):
exactly the four fields of the `data` dictionary. -/
structure SessionRecord where
  profile : String
  timestamp : String
  history : List (String × String)
  evaluation : String
deriving Repr, DecidableEq

/-- File-system operations performed by `save_session`. -/
inductive FsOp where
  | makedirs (dir : String)
  | writeFile (path : String)
deriving Repr, DecidableEq

/-- What one `save_session` call produces: the returned filename, the
serialised record, and the ordered file-system operations. -/
structure SaveResult where
  filename : String
  data : SessionRecord
  ops : List FsOp
deriving Repr, DecidableEq

/-- `save_session` (`utils.py` lines 145-161).  `now` is the oracle for
`datetime.now()`.  The directory is created (`exist_ok=True`) before the
file is written; the filename replaces every space of the profile by an
underscore, exactly as `profile.replace(' ', '_')` does. -/
def save_session (profile : String) (history : List (String × String))
    (evaluation : String) (now : PyDateTime) : SaveResult :=
  let timestamp := strftime_timestamp now
  let filename :=
    "data/interview_" ++ profile.replace " " "_" ++ "_" ++ timestamp ++ ".json"
  { filename := filename
    data :=
      { profile := profile
        timestamp := timestamp
        history := history
        evaluation := evaluation }
    ops := [FsOp.makedirs "data", FsOp.writeFile filename] }

/-- The JSON values `json.dump` writes for a session record: strings,
arrays and objects suffice. -/
inductive JsonVal where
  | str (s : String)
  | arr (items : List JsonVal)
  | obj (fields : List (String × JsonVal))
deriving Repr

/-- One `(question, answer)` pair as `json.dump` renders a Python tuple:
a two-element array. -/
def encodeExchange (p : String × String) : JsonVal :=
  JsonVal.arr [JsonVal.str p.1, JsonVal.str p.2]

/-- The JSON document `json.dump` writes for the `data` dictionary of
`save_session`, field order as in the source. -/
def encodeRecord (r : SessionRecord) : JsonVal :=
  JsonVal.obj
    [("profile", JsonVal.str r.profile),
     ("timestamp", JsonVal.str r.timestamp),
     ("history", JsonVal.arr (r.history.map encodeExchange)),
     ("evaluation", JsonVal.str r.evaluation)]

/-- Reading one exchange back from JSON. -/
def decodeExchange : JsonVal → Option (String × String)
  | JsonVal.arr [JsonVal.str q, JsonVal.str a] => some (q, a)
  | _ => none

/-- Reading a list of exchanges back from JSON, in order. -/
def decodeExchanges : List JsonVal → Option (List (String × String))
  | [] => some []
  | v :: rest =>
    match decodeExchange v, decodeExchanges rest with
    | some p, some ps => some (p :: ps)
    | _, _ => none

/-- Reading a session record back from JSON, as `json.load` followed by
field access would. -/
def decodeRecord : JsonVal → Option SessionRecord
  | JsonVal.obj [("profile", JsonVal.str p), ("timestamp", JsonVal.str t),
      ("history", JsonVal.arr hs), ("evaluation", JsonVal.str e)] =>
    match decodeExchanges hs with
    | some h =>
        some { profile := p, timestamp := t, history := h, evaluation := e }
    | none => none
  | _ => none

/-! ### Invariant lemmas for the session lifecycle -/

lemma pyTruthy_none : pyTruthy none = false := rfl

lemma pyTruthy_some (s : String) : pyTruthy (some s) = decide (s ≠ "") := rfl

lemma step_len {s t : AppState} (hst : Step s t)
    (h : s.chat_history.length = s.question_count) :
    t.chat_history.length = t.question_count := by
  cases hst with
  | start api_key job_profile q s =>
    unfold startSession startSessionFull
    by_cases hk : pyTruthy api_key <;> simp [hk, h]
  | submit text report next_q s hg =>
    unfold submitAnswer
    by_cases hc : s.question_count + 1 ≥ 7 <;> simp [hc, h]
  | reset s hg =>
    unfold resetSession
    by_cases he : pyTruthy s.evaluation <;> simp [he, h]

lemma reachable_len {s : AppState} (h : Reachable s) :
    s.chat_history.length = s.question_count := by
  induction h with
  | init => rfl
  | step _ hst ih => exact step_len hst ih

lemma goodStep_toStep {s t : AppState} (h : GoodStep s t) : Step s t := by
  cases h with
  | start api_key job_profile q s => exact Step.start api_key job_profile q s
  | submit text report next_q s hg hr => exact Step.submit text report next_q s hg
  | reset s hg => exact Step.reset s hg

lemma goodReachable_toReachable {s : AppState} (h : GoodReachable s) :
    Reachable s := by
  induction h with
  | init => exact Reachable.init
  | step _ hst ih => exact Reachable.step ih (goodStep_toStep hst)

/-- Inductive invariant for the bounded-length argument: the count never
passes 7, and whenever Submit Answer is still reachable the count is
strictly below 7. -/
def BoundInv (s : AppState) : Prop :=
  s.question_count ≤ 7 ∧ (submitGuard s = true → s.question_count < 7)

lemma goodStep_bound {s t : AppState} (hst : GoodStep s t) (h : BoundInv s) :
    BoundInv t := by
  obtain ⟨h7, hlt⟩ := h
  cases hst with
  | start api_key job_profile q s =>
    unfold startSession startSessionFull
    by_cases hk : pyTruthy api_key
    · constructor
      · simp [hk]
      · intro _; simp [hk]
    · simpa [hk, BoundInv] using ⟨h7, hlt⟩
  | submit text report next_q s hg hr =>
    have hc : s.question_count < 7 := hlt hg
    unfold submitAnswer
    by_cases hdone : s.question_count + 1 ≥ 7
    · constructor
      · simp [hdone]; omega
      · intro hguard
        simp [submitGuard, pyTruthy, hdone] at hguard
        exact absurd hguard.1 hr
    · constructor
      · simp [hdone]; omega
      · intro _; simp [hdone]; omega
  | reset s hg =>
    unfold resetSession
    by_cases he : pyTruthy s.evaluation
    · constructor
      · simp [he]; omega
      · intro hguard
        simp [submitGuard, he] at hguard
    · simpa [he, BoundInv] using ⟨h7, hlt⟩

lemma goodReachable_bound {s : AppState} (h : GoodReachable s) : BoundInv s := by
  induction h with
  | init => exact ⟨by simp [initState], fun hg => by simp [initState, submitGuard] at hg⟩
  | step _ hst ih => exact goodStep_bound hst ih

/-! ### Concrete runs used as counterexamples and witnesses -/

/-- A run in which the evaluator always returns the empty string: start,
then `n` submitted answers. -/
def emptyReportRun : Nat → AppState
  | 0 => startSession (some "k") "Software Engineer" "Q1" initState
  | n + 1 => submitAnswer "My answer." "" "Next question" (emptyReportRun n)

/-- A run in which the evaluator returns a non-empty report: start, then
`n` submitted answers. -/
def goodRun : Nat → AppState
  | 0 => startSession (some "k") "Data Scientist" "Q1" initState
  | n + 1 => submitAnswer "My answer." "A solid report" "Next question" (goodRun n)

lemma emptyReportRun_reachable8 : Reachable (emptyReportRun 8) := by
  have h0 : Reachable (emptyReportRun 0) :=
    Reachable.step Reachable.init
      (Step.start (some "k") "Software Engineer" "Q1" initState)
  have h1 : Reachable (emptyReportRun 1) :=
    Reachable.step h0
      (Step.submit "My answer." "" "Next question" (emptyReportRun 0) (by decide))
  have h2 : Reachable (emptyReportRun 2) :=
    Reachable.step h1
      (Step.submit "My answer." "" "Next question" (emptyReportRun 1) (by decide))
  have h3 : Reachable (emptyReportRun 3) :=
    Reachable.step h2
      (Step.submit "My answer." "" "Next question" (emptyReportRun 2) (by decide))
  have h4 : Reachable (emptyReportRun 4) :=
    Reachable.step h3
      (Step.submit "My answer." "" "Next question" (emptyReportRun 3) (by decide))
  have h5 : Reachable (emptyReportRun 5) :=
    Reachable.step h4
      (Step.submit "My answer." "" "Next question" (emptyReportRun 4) (by decide))
  have h6 : Reachable (emptyReportRun 6) :=
    Reachable.step h5
      (Step.submit "My answer." "" "Next question" (emptyReportRun 5) (by decide))
  have h7 : Reachable (emptyReportRun 7) :=
    Reachable.step h6
      (Step.submit "My answer." "" "Next question" (emptyReportRun 6) (by decide))
  exact Reachable.step h7
    (Step.submit "My answer." "" "Next question" (emptyReportRun 7) (by decide))

lemma goodRun_reachable7 : Reachable (goodRun 7) := by
  have h0 : Reachable (goodRun 0) :=
    Reachable.step Reachable.init
      (Step.start (some "k") "Data Scientist" "Q1" initState)
  have h1 : Reachable (goodRun 1) :=
    Reachable.step h0
      (Step.submit "My answer." "A solid report" "Next question" (goodRun 0) (by decide))
  have h2 : Reachable (goodRun 2) :=
    Reachable.step h1
      (Step.submit "My answer." "A solid report" "Next question" (goodRun 1) (by decide))
  have h3 : Reachable (goodRun 3) :=
    Reachable.step h2
      (Step.submit "My answer." "A solid report" "Next question" (goodRun 2) (by decide))
  have h4 : Reachable (goodRun 4) :=
    Reachable.step h3
      (Step.submit "My answer." "A solid report" "Next question" (goodRun 3) (by decide))
  have h5 : Reachable (goodRun 5) :=
    Reachable.step h4
      (Step.submit "My answer." "A solid report" "Next question" (goodRun 4) (by decide))
  have h6 : Reachable (goodRun 6) :=
    Reachable.step h5
      (Step.submit "My answer." "A solid report" "Next question" (goodRun 5) (by decide))
  exact Reachable.step h6
    (Step.submit "My answer." "A solid report" "Next question" (goodRun 6) (by decide))

/-! ### Claims C1-C5: the session lifecycle -/

/-- Claim C1, counterexample: the completion check tests Python
truthiness of `evaluation`, so when the evaluator returns the empty
string the session never shows the completed view and an eighth Submit
Answer is reachable: a reachable state has eight transcript entries. -/
theorem transcript_can_exceed_seven :
    Reachable (emptyReportRun 8) ∧ (emptyReportRun 8).chat_history.length = 8 ∧
      ¬((emptyReportRun 8).chat_history.length ≤ 7) :=
  ⟨emptyReportRun_reachable8, by decide, by decide⟩

/-- Claim C1 (amended): every Submit Answer performed while the session
is Active appends exactly one exchange, and provided the evaluator's
report is never the empty string, `len(transcript)` never exceeds 7 in
any reachable state. -/
theorem submit_appends_one_and_transcript_bounded (s : AppState)
    (hs : GoodReachable s) :
    (∀ text report next_q,
      (submitAnswer text report next_q s).chat_history.length =
        s.chat_history.length + 1) ∧
    s.chat_history.length ≤ 7 := by
  constructor
  · intro text report next_q
    unfold submitAnswer
    by_cases hc : s.question_count + 1 ≥ 7 <;> simp [hc]
  · have h1 := reachable_len (goodReachable_toReachable hs)
    have h2 := (goodReachable_bound hs).1
    omega

theorem submit_appends_one_and_transcript_bounded_witness :
    (submitAnswer "My answer." "A solid report" "Next question" initState).chat_history.length =
      initState.chat_history.length + 1 ∧
    initState.chat_history.length ≤ 7 :=
  ⟨(submit_appends_one_and_transcript_bounded initState GoodReachable.init).1
      "My answer." "A solid report" "Next question",
   (submit_appends_one_and_transcript_bounded initState GoodReachable.init).2⟩

/-- Claim C3: in every reachable state, the transcript length equals
`question_count`. -/
theorem transcript_len_eq_question_count (s : AppState) (h : Reachable s) :
    s.chat_history.length = s.question_count :=
  reachable_len h

theorem transcript_len_eq_question_count_witness :
    (goodRun 7).chat_history.length = (goodRun 7).question_count :=
  transcript_len_eq_question_count (goodRun 7) goodRun_reachable7

/-- Claim C2, counterexample: after the 7th Submit Answer the session is
Completed, but `current_question` is not cleared: it still holds the
last generated question rather than `none`. -/
theorem completion_does_not_clear_current_question :
    Reachable (goodRun 7) ∧ status (goodRun 7) = Status.Completed ∧
      (goodRun 7).current_question = some "Next question" ∧
      ¬((goodRun 7).current_question = none) :=
  ⟨goodRun_reachable7, by decide, by decide, by decide⟩

/-- Claim C2 (amended): the 7th Submit Answer stores the evaluator's
report; when that report is non-empty the status becomes Completed and
no further Submit Answer is possible in the session (so the Completed
transition happens exactly once), while `current_question` is not
cleared: it keeps its previous value. -/
theorem seventh_submit_completes_once (s : AppState) (text report next_q : String)
    (h6 : s.question_count = 6) (hg : submitGuard s = true) (hr : report ≠ "") :
    status (submitAnswer text report next_q s) = Status.Completed ∧
    (submitAnswer text report next_q s).evaluation = some report ∧
    (submitAnswer text report next_q s).current_question = s.current_question ∧
    submitGuard (submitAnswer text report next_q s) = false := by
  unfold submitAnswer
  simp only [h6]
  refine ⟨?_, ?_, ?_, ?_⟩ <;>
    simp [status, submitGuard, pyTruthy, hr]

theorem seventh_submit_completes_once_witness :
    status (submitAnswer "My answer." "A solid report" "Next question" (goodRun 6)) =
      Status.Completed ∧
    (submitAnswer "My answer." "A solid report" "Next question" (goodRun 6)).evaluation =
      some "A solid report" ∧
    (submitAnswer "My answer." "A solid report" "Next question" (goodRun 6)).current_question =
      (goodRun 6).current_question ∧
    submitGuard (submitAnswer "My answer." "A solid report" "Next question" (goodRun 6)) =
      false :=
  seventh_submit_completes_once (goodRun 6) "My answer." "A solid report" "Next question"
    (by decide) (by decide) (by decide)

/-- Claim C4: Start Interview with a missing (or empty, hence falsy)
credential leaves the state untouched — in particular an Idle session
stays Idle — surfaces the configuration error message, and never invokes
the question generator. -/
theorem start_without_key_stays_idle (api_key : Option String)
    (job_profile q : String) (s : AppState)
    (hk : pyTruthy api_key = false) (hs : status s = Status.Idle) :
    status (startSession api_key job_profile q s) = Status.Idle ∧
    startSession api_key job_profile q s = s ∧
    (∀ p, UiEvent.generatorInvoked p ∉ (startSessionFull api_key job_profile q s).2) ∧
    UiEvent.errorShown "GOOGLE_API_KEY not found in .env file." ∈
      (startSessionFull api_key job_profile q s).2 := by
  unfold startSession startSessionFull
  simp [hk, hs]

theorem start_without_key_stays_idle_witness :
    status (startSession none "Software Engineer" "Q1" initState) = Status.Idle ∧
    startSession none "Software Engineer" "Q1" initState = initState ∧
    (∀ p, UiEvent.generatorInvoked p ∉
      (startSessionFull none "Software Engineer" "Q1" initState).2) ∧
    UiEvent.errorShown "GOOGLE_API_KEY not found in .env file." ∈
      (startSessionFull none "Software Engineer" "Q1" initState).2 :=
  start_without_key_stays_idle none "Software Engineer" "Q1" initState
    (by decide) (by decide)

/-- Claim C5, counterexample: Start New Interview from a completed
session returns to Idle, but the transcript is not emptied: the seven
recorded exchanges survive the reset (they are only discarded by the
next Start Interview). -/
theorem reset_does_not_clear_transcript :
    Reachable (goodRun 7) ∧ status (resetSession (goodRun 7)) = Status.Idle ∧
      (resetSession (goodRun 7)).chat_history.length = 7 ∧
      ¬((resetSession (goodRun 7)).chat_history = []) :=
  ⟨goodRun_reachable7, by decide, by decide, by decide⟩

/-- Claim C5 (amended): Start New Interview from Completed yields status
Idle with `evaluation = none`, but leaves the transcript in place (the
transcript is cleared only by the next Start Interview); from Idle or
Active the operation is unavailable and acts as the identity. -/
theorem reset_yields_idle_keeps_transcript (s : AppState)
    (hg : resetGuard s = true) :
    status (resetSession s) = Status.Idle ∧
    (resetSession s).evaluation = none ∧
    (resetSession s).chat_history = s.chat_history ∧
    ∀ s2 : AppState, resetGuard s2 = false → resetSession s2 = s2 := by
  unfold resetGuard at hg
  refine ⟨?_, ?_, ?_, ?_⟩
  · simp [resetSession, status, hg, pyTruthy_none]
  · simp [resetSession, hg]
  · simp [resetSession, hg]
  · intro s2 hg2
    unfold resetGuard at hg2
    simp [resetSession, hg2]

theorem reset_yields_idle_keeps_transcript_witness :
    status (resetSession (goodRun 7)) = Status.Idle ∧
    (resetSession (goodRun 7)).evaluation = none ∧
    (resetSession (goodRun 7)).chat_history = (goodRun 7).chat_history ∧
    ∀ s2 : AppState, resetGuard s2 = false → resetSession s2 = s2 :=
  reset_yields_idle_keeps_transcript (goodRun 7) (by decide)

/-! ### Claim C6: question generation never raises -/

/-- Claim C6: whenever the underlying model call fails, `get_ai_question`
returns (rather than raises) a string carrying the
"Error generating question: " prefix, and the Submit Answer handler
installs that string as the next `current_question` exactly like a real
question. -/
theorem question_failure_returns_prefixed_string (profile : String)
    (history : List (String × String)) (api_key : Option String)
    (provider : String) (invoke : String → String → Except String String)
    (e : String)
    (hllm : get_llm api_key provider ≠ none)
    (hfail : invoke profile (history_text history) = Except.error e) :
    get_ai_question profile history api_key provider invoke =
      "Error generating question: " ++ e ++
        ". Please check your API Key in .env file." ∧
    (∃ rest, get_ai_question profile history api_key provider invoke =
      "Error generating question: " ++ rest) ∧
    ∀ (s : AppState) (text report : String), s.question_count + 1 < 7 →
      (submitAnswer text report
        (get_ai_question profile history api_key provider invoke) s).current_question =
        some (get_ai_question profile history api_key provider invoke) := by
  cases hl : get_llm api_key provider with
  | none => exact absurd hl hllm
  | some llm =>
    refine ⟨?_, ?_, ?_⟩
    · simp [get_ai_question, hl, hfail]
    · exact ⟨e ++ ". Please check your API Key in .env file.",
        by simp [get_ai_question, hl, hfail, String.append_assoc]⟩
    · intro s text report hc
      have hc7 : ¬(s.question_count + 1 ≥ 7) := by omega
      simp [submitAnswer, hc7]

theorem question_failure_returns_prefixed_string_witness :
    get_ai_question "Software Engineer" [] (some "k") "Gemini"
        (fun _ _ => Except.error "boom") =
      "Error generating question: " ++ "boom" ++
        ". Please check your API Key in .env file." ∧
    (submitAnswer "My answer." "A solid report"
        (get_ai_question "Software Engineer" [] (some "k") "Gemini"
          (fun _ _ => Except.error "boom")) (goodRun 0)).current_question =
      some (get_ai_question "Software Engineer" [] (some "k") "Gemini"
        (fun _ _ => Except.error "boom")) :=
  ⟨(question_failure_returns_prefixed_string "Software Engineer" [] (some "k")
      "Gemini" (fun _ _ => Except.error "boom") "boom" (by decide) rfl).1,
   (question_failure_returns_prefixed_string "Software Engineer" [] (some "k")
      "Gemini" (fun _ _ => Except.error "boom") "boom" (by decide) rfl).2.2
     (goodRun 0) "My answer." "A solid report" (by decide)⟩

/-! ### Claims C7 and C8: the transcription adapter -/

lemma run_fallback_used (env : FallbackEnv) :
    (run_fallback env).fallback_used = true := by
  unfold run_fallback
  cases h : env.recognize (fallback_wav_path env) <;> simp [h]

lemma run_fallback_error_text (env : FallbackEnv) (e : String)
    (h : env.recognize (fallback_wav_path env) = Except.error e) :
    (run_fallback env).text = "Error transcribing audio: " ++ e ++
      ". (Note: ffmpeg is required for local processing, or provide a valid Gemini API Key)" := by
  simp [run_fallback, h]

lemma transcribe_fallback_eq (api_key : Option String)
    (gemini : Except String String) (env : FallbackEnv)
    (hfb : pyTruthy api_key = false ∨ ∃ e, gemini = Except.error e) :
    transcribe_audio api_key gemini env = run_fallback env := by
  rcases hfb with h | ⟨e, h⟩
  · simp [transcribe_audio, h]
  · subst h
    cases hk : pyTruthy api_key <;> simp [transcribe_audio, hk]

/-- Claim C7: the fallback tier runs if and only if the credential is
absent (falsy) or the primary multimodal call raises; and when the
fallback's recognition itself fails, `transcribe_audio` returns the
formatted error string instead of raising. -/
theorem fallback_iff_no_key_or_primary_raises (api_key : Option String)
    (gemini : Except String String) (env : FallbackEnv) :
    ((transcribe_audio api_key gemini env).fallback_used = true ↔
      (pyTruthy api_key = false ∨ ∃ e, gemini = Except.error e)) ∧
    (∀ e, env.recognize (fallback_wav_path env) = Except.error e →
      (pyTruthy api_key = false ∨ ∃ e2, gemini = Except.error e2) →
      (transcribe_audio api_key gemini env).text =
        "Error transcribing audio: " ++ e ++
          ". (Note: ffmpeg is required for local processing, or provide a valid Gemini API Key)") := by
  constructor
  · cases hk : pyTruthy api_key with
    | false => simp [transcribe_audio, hk, run_fallback_used]
    | true =>
      cases gemini with
      | ok t => simp [transcribe_audio, hk]
      | error g => simp [transcribe_audio, hk, run_fallback_used]
  · intro e he hor
    rw [transcribe_fallback_eq api_key gemini env hor]
    exact run_fallback_error_text env e he

/-- An environment whose conversion and recognition both fail. -/
def failEnv : FallbackEnv :=
  { tmp_input_path := "/tmp/in.webm"
    convert := Except.error "no ffmpeg"
    recognize := fun _ => Except.error "recognition failed"
    remove_ok := fun _ => true }

/-- An environment whose conversion and recognition succeed but whose
deletions fail. -/
def okEnv : FallbackEnv :=
  { tmp_input_path := "/tmp/in.webm"
    convert := Except.ok ()
    recognize := fun _ => Except.ok "hello world"
    remove_ok := fun _ => false }

theorem fallback_iff_no_key_or_primary_raises_witness :
    (transcribe_audio none (Except.ok "hi") failEnv).fallback_used = true ∧
    (transcribe_audio none (Except.ok "hi") failEnv).text =
      "Error transcribing audio: " ++ "recognition failed" ++
        ". (Note: ffmpeg is required for local processing, or provide a valid Gemini API Key)" :=
  ⟨((fallback_iff_no_key_or_primary_raises none (Except.ok "hi") failEnv).1).mpr
      (Or.inl rfl),
   (fallback_iff_no_key_or_primary_raises none (Except.ok "hi") failEnv).2
     "recognition failed" rfl (Or.inl rfl)⟩

/-- True when the trace holds at least one deletion attempt. -/
def hasRemoveAttempt (evs : List FsEvent) : Bool :=
  evs.any fun ev =>
    match ev with
    | FsEvent.removeAttempt _ => true
    | _ => false

/-- Claim C8, counterexample: the cleanup block sits inside the `try`
after recognition, so when recognition fails the fallback returns its
error string with the temporary file created and no deletion attempted
at all. -/
theorem failed_recognition_attempts_no_cleanup :
    (transcribe_audio none (Except.error "x") failEnv).events =
      [FsEvent.create "/tmp/in.webm"] ∧
    hasRemoveAttempt (transcribe_audio none (Except.error "x") failEnv).events = false :=
  ⟨rfl, rfl⟩

lemma run_fallback_ok_facts (env : FallbackEnv) (t : String)
    (hrec : env.recognize (fallback_wav_path env) = Except.ok t) :
    (run_fallback env).text = t ∧
    FsEvent.removeAttempt env.tmp_input_path ∈ (run_fallback env).events ∧
    ((env.remove_ok env.tmp_input_path = true ∧
        fallback_wav_path env ≠ env.tmp_input_path) →
      FsEvent.removeAttempt (fallback_wav_path env) ∈ (run_fallback env).events) := by
  refine ⟨?_, ?_, ?_⟩
  · simp [run_fallback, hrec]
  · simp [run_fallback, hrec]
  · rintro ⟨hro, hne⟩
    simp [run_fallback, hrec, hro, hne]

/-- Claim C8 (amended): temp-file deletion is attempted only on the
success path.  When recognition succeeds, deletion of the input temp
file is attempted before the call returns and deletion failures are
suppressed — the recognized text is returned regardless of `os.remove`'s
outcome, and the converted wav file's deletion is attempted only when
the input file's deletion succeeded and the paths differ.  When
recognition fails, no deletion is attempted (see the counterexample). -/
theorem cleanup_attempted_on_success (api_key : Option String)
    (gemini : Except String String) (env : FallbackEnv) (t : String)
    (hrec : env.recognize (fallback_wav_path env) = Except.ok t)
    (hfb : pyTruthy api_key = false ∨ ∃ e, gemini = Except.error e) :
    FsEvent.removeAttempt env.tmp_input_path ∈
      (transcribe_audio api_key gemini env).events ∧
    (transcribe_audio api_key gemini env).text = t ∧
    ((env.remove_ok env.tmp_input_path = true ∧
        fallback_wav_path env ≠ env.tmp_input_path) →
      FsEvent.removeAttempt (fallback_wav_path env) ∈
        (transcribe_audio api_key gemini env).events) := by
  rw [transcribe_fallback_eq api_key gemini env hfb]
  have hf := run_fallback_ok_facts env t hrec
  exact ⟨hf.2.1, hf.1, hf.2.2⟩

theorem cleanup_attempted_on_success_witness :
    FsEvent.removeAttempt "/tmp/in.webm" ∈
      (transcribe_audio none (Except.ok "unused") okEnv).events ∧
    (transcribe_audio none (Except.ok "unused") okEnv).text = "hello world" ∧
    ((okEnv.remove_ok okEnv.tmp_input_path = true ∧
        fallback_wav_path okEnv ≠ okEnv.tmp_input_path) →
      FsEvent.removeAttempt (fallback_wav_path okEnv) ∈
        (transcribe_audio none (Except.ok "unused") okEnv).events) :=
  cleanup_attempted_on_success none (Except.ok "unused") okEnv "hello world"
    rfl (Or.inl rfl)

/-! ### Claims C9 and C10: the session archiver -/

lemma digitChar_isDigit (n : Nat) : (digitChar n).isDigit = true := by
  have h : ∀ m, m < 10 → (Char.ofNat (48 + m)).isDigit = true := by decide
  unfold digitChar
  exact h (n % 10) (Nat.mod_lt n (by norm_num))

lemma timestamp_format (t : PyDateTime) :
    isTimestampFormat (strftime_timestamp t) = true := by
  simp [strftime_timestamp, isTimestampFormat, digitChar_isDigit]

/-- Claim C9: `save_session` produces a record with exactly the fields
`profile`, `timestamp` (in YYYYMMDD_HHMMSS shape), `history` and
`evaluation`, at the path
`data/interview_<profile with spaces underscored>_<timestamp>.json`,
creating the storage directory (on demand) before writing the file. -/
theorem save_session_record_and_path (profile : String)
    (history : List (String × String)) (evaluation : String)
    (now : PyDateTime) :
    (save_session profile history evaluation now).data =
      { profile := profile, timestamp := strftime_timestamp now,
        history := history, evaluation := evaluation } ∧
    isTimestampFormat (save_session profile history evaluation now).data.timestamp = true ∧
    (save_session profile history evaluation now).filename =
      "data/interview_" ++ profile.replace " " "_" ++ "_" ++
        strftime_timestamp now ++ ".json" ∧
    (save_session profile history evaluation now).ops =
      [FsOp.makedirs "data",
       FsOp.writeFile (save_session profile history evaluation now).filename] :=
  ⟨rfl, timestamp_format now, rfl, rfl⟩

lemma decodeExchanges_encode (l : List (String × String)) :
    decodeExchanges (l.map encodeExchange) = some l := by
  induction l with
  | nil => rfl
  | cons p rest ih =>
    cases p with
    | mk q a => simp [decodeExchanges, decodeExchange, encodeExchange, ih]

lemma decodeRecord_encodeRecord (r : SessionRecord) :
    decodeRecord (encodeRecord r) = some r := by
  cases r with
  | mk p t h e => simp [encodeRecord, decodeRecord, decodeExchanges_encode]

/-- Claim C10: the session record written by `save_session`, encoded to
its JSON document and read back, reproduces the same profile, the same
history in the same order, and the same evaluation text byte-for-byte. -/
theorem saved_record_roundtrip (profile : String)
    (history : List (String × String)) (evaluation : String)
    (now : PyDateTime) :
    decodeRecord (encodeRecord (save_session profile history evaluation now).data) =
      some (save_session profile history evaluation now).data ∧
    (save_session profile history evaluation now).data.profile = profile ∧
    (save_session profile history evaluation now).data.history = history ∧
    (save_session profile history evaluation now).data.evaluation = evaluation :=
  ⟨decodeRecord_encodeRecord _, rfl, rfl, rfl⟩

end AIInterviewer
